import Mathlib

/-!
Verification of the `good-files` Rust library (src/lib.rs and src/file.rs).

The library wraps filesystem open/read/write operations behind a typed API.
We embed the two source files shallowly:

* `Std` namespace: the platform / Rust standard-library surface the code
  relies on (`OpenOptions` flag validation and `open(2)` semantics,
  `BufWriter` buffering, a byte filesystem model).
* `Lib` namespace: the code of `src/lib.rs`.
* `FileRs` namespace: the code of `src/file.rs`.

Bytes are modelled as `Nat`, paths as `String`, the filesystem as an
association list from paths to byte lists.  Every operation returns its
result together with the filesystem after the call, so "no file is
created on error" is directly statable.
-/

namespace GoodFiles

/-- I/O error kinds, matching Rust `std::io::ErrorKind` values the model
can produce.  `Uncategorized` stands for raw OS errors Rust leaves
unclassified (for example `EBADF` when writing through a read-only
descriptor). -/
inductive IoError where
  | NotFound
  | AlreadyExists
  | InvalidInput
  | InvalidData
  | Uncategorized
deriving DecidableEq, Repr

/-- Paths are modelled as strings. -/
abbrev Path := String

/-- The filesystem: an association list from paths to file contents
(byte lists). -/
abbrev Fs := List (Path × List Nat)

/-- Look up the content of a file. -/
def Fs.lookup : Fs → Path → Option (List Nat)
  | [], _ => none
  | (q, c) :: rest, p => if q = p then some c else Fs.lookup rest p

/-- Set the content of a file, creating the entry if absent. -/
def Fs.insert : Fs → Path → List Nat → Fs
  | [], p, c => [(p, c)]
  | (q, d) :: rest, p, c =>
      if q = p then (p, c) :: rest else (q, d) :: Fs.insert rest p c

namespace Std

/-- Rust `std::fs::OpenOptions`: the primitive open-flag set. -/
structure OpenOptions where
  read : Bool := false
  write : Bool := false
  append : Bool := false
  truncate : Bool := false
  create : Bool := false
  create_new : Bool := false
deriving DecidableEq, Repr

/-- An open file descriptor: the path it refers to and the access mode it
was opened with. -/
structure Handle where
  path : Path
  readable : Bool
  writable : Bool
  appendMode : Bool
deriving DecidableEq, Repr

/-- Rust `OpenOptions::open` (Unix backend).  Validates the access mode
(`get_access_mode`) and the creation flags (`get_creation_mode`) exactly as
Rust's standard library does, returning `InvalidInput` (`EINVAL`) on an
invalid combination; then performs the `open(2)` call on the modelled
filesystem. -/
def OpenOptions.open (o : OpenOptions) (p : Path) (fs : Fs) :
    Except IoError Handle × Fs :=
  if !(o.read || o.write || o.append) then
    (.error .InvalidInput, fs)
  else if !o.write && !o.append && (o.truncate || o.create || o.create_new) then
    (.error .InvalidInput, fs)
  else if o.append && o.truncate && !o.create_new then
    (.error .InvalidInput, fs)
  else
    let h : Handle := ⟨p, o.read, o.write || o.append, o.append⟩
    match fs.lookup p with
    | some _ =>
        if o.create_new then (.error .AlreadyExists, fs)
        else if o.truncate then (.ok h, fs.insert p [])
        else (.ok h, fs)
    | none =>
        if o.create || o.create_new then (.ok h, fs.insert p [])
        else (.error .NotFound, fs)

/-- Writing a byte sequence through a descriptor: appended at end-of-file
in append mode, otherwise written from position 0 with trailing bytes
preserved.  Writing through a non-writable descriptor fails (`EBADF`). -/
def Handle.writeBytes (h : Handle) (data : List Nat) (fs : Fs) :
    Except IoError Unit × Fs :=
  if !h.writable then (.error .Uncategorized, fs)
  else if data.isEmpty then (.ok (), fs)
  else
    match fs.lookup h.path with
    | none => (.error .Uncategorized, fs)
    | some c =>
        if h.appendMode then (.ok (), fs.insert h.path (c ++ data))
        else (.ok (), fs.insert h.path (data ++ c.drop data.length))

/-- `BufWriter::new` buffer capacity (Rust `DEFAULT_BUF_SIZE`). -/
def bufWriterCapacity : Nat := 8192

/-- Byte-level UTF-8 validity, as checked by Rust `str::from_utf8`. -/
def isCont (b : Nat) : Bool := 0x80 ≤ b && b ≤ 0xBF

/-- UTF-8 validity of a byte list (rejecting overlong forms and
surrogates, as Rust does). -/
def utf8Valid : List Nat → Bool
  | [] => true
  | b :: rest =>
      if b ≤ 0x7F then utf8Valid rest
      else if b < 0xC2 then false
      else if b ≤ 0xDF then
        match rest with
        | c :: r => isCont c && utf8Valid r
        | [] => false
      else if b ≤ 0xEF then
        match rest with
        | c1 :: c2 :: r =>
            (if b = 0xE0 then decide (0xA0 ≤ c1 && c1 ≤ 0xBF)
             else if b = 0xED then decide (0x80 ≤ c1 && c1 ≤ 0x9F)
             else isCont c1) && isCont c2 && utf8Valid r
        | _ => false
      else if b ≤ 0xF4 then
        match rest with
        | c1 :: c2 :: c3 :: r =>
            (if b = 0xF0 then decide (0x90 ≤ c1 && c1 ≤ 0xBF)
             else if b = 0xF4 then decide (0x80 ≤ c1 && c1 ≤ 0x8F)
             else isCont c1) && isCont c2 && isCont c3 && utf8Valid r
        | _ => false
      else false

end Std

instance {ε α : Type} [DecidableEq ε] [DecidableEq α] : DecidableEq (Except ε α)
  | .error e, .error f =>
      if h : e = f then isTrue (by rw [h])
      else isFalse (by intro hh; cases hh; exact h rfl)
  | .error _, .ok _ => isFalse (by intro h; cases h)
  | .ok _, .error _ => isFalse (by intro h; cases h)
  | .ok a, .ok b =>
      if h : a = b then isTrue (by rw [h])
      else isFalse (by intro hh; cases hh; exact h rfl)

/-- The observable outcome of a `write_all_with` call.  `result`, and the
state at the instant the result is produced (the `BufWriter` buffer still
pending, and the filesystem as the OS sees it at that instant), plus the
filesystem after the `BufWriter` is dropped and its buffer flushed (drop
ignores flush errors). -/
structure WriteOutcome where
  result : Except IoError Unit
  pendingAtReturn : List Nat
  fsAtReturn : Fs
  fs : Fs
deriving DecidableEq, Repr

/-- `File::write_all_with` body, shared semantics of both source variants:
open a `BufWriter` on the path with the given options, `write_all` the
buffer, call `sync_all` on the underlying descriptor, return `Ok(())`,
then drop the `BufWriter` (flushing its buffer, flush errors ignored).

`BufWriter::write_all` sends the bytes straight to the descriptor when the
slice is at least the buffer capacity, and otherwise retains them in the
in-process buffer; the retained bytes reach the descriptor only during the
drop, after the result has been produced. -/
def writeAllVia (opts : Std.OpenOptions) (p : Path) (buf : List Nat) (fs : Fs) :
    WriteOutcome :=
  match opts.open p fs with
  | (.error e, fs1) => ⟨.error e, [], fs1, fs1⟩
  | (.ok h, fs1) =>
      if Std.bufWriterCapacity ≤ buf.length then
        match h.writeBytes buf fs1 with
        | (.error e, fs2) => ⟨.error e, [], fs2, fs2⟩
        | (.ok _, fs2) => ⟨.ok (), [], fs2, fs2⟩
      else
        ⟨.ok (), buf, fs1, (h.writeBytes buf fs1).2⟩

/-- `File::read_all` body, shared semantics of both source variants:
open read-only through `buf_reader`, `read_to_end`, return the bytes. -/
def readAllVia (opts : Std.OpenOptions) (p : Path) (fs : Fs) :
    Except IoError (List Nat) × Fs :=
  match opts.open p fs with
  | (.error e, fs1) => (.error e, fs1)
  | (.ok h, fs1) =>
      if h.readable then (.ok ((fs1.lookup h.path).getD []), fs1)
      else (.error .Uncategorized, fs1)

/-- `File::read_string` body: as `read_all` but `read_to_string` fails with
`InvalidData` on bytes that are not valid UTF-8.  The returned `String` is
determined by its UTF-8 bytes, so the model returns the byte list. -/
def readStringVia (opts : Std.OpenOptions) (p : Path) (fs : Fs) :
    Except IoError (List Nat) × Fs :=
  match opts.open p fs with
  | (.error e, fs1) => (.error e, fs1)
  | (.ok h, fs1) =>
      if h.readable then
        if Std.utf8Valid ((fs1.lookup h.path).getD []) then
          (.ok ((fs1.lookup h.path).getD []), fs1)
        else (.error .InvalidData, fs1)
      else (.error .Uncategorized, fs1)

namespace Lib

/-- `src/lib.rs` `CreateMode`. -/
inductive CreateMode where
  | CreateNew
  | IfNotExists
  | Never
deriving DecidableEq, Repr

/-- `src/lib.rs` `WriteOption`. -/
inductive WriteOption where
  | Append
  | Overwrite
  | Truncate
deriving DecidableEq, Repr

/-- `src/lib.rs` `FileOpener(CreateMode, bool, Option<WriteOption>)`. -/
structure FileOpener where
  createMode : CreateMode
  readable : Bool
  writeOption : Option WriteOption
deriving DecidableEq, Repr

/-- `FileOpener::appending`. -/
def FileOpener.appending : FileOpener := ⟨.Never, false, some .Append⟩

/-- `FileOpener::truncate`. -/
def FileOpener.truncate : FileOpener := ⟨.IfNotExists, false, some .Truncate⟩

/-- `FileOpener::overwrite`. -/
def FileOpener.overwrite : FileOpener := ⟨.IfNotExists, false, some .Overwrite⟩

/-- `FileOpener::append_or_create`. -/
def FileOpener.append_or_create : FileOpener := ⟨.IfNotExists, false, some .Append⟩

/-- `FileOpener::readonly`. -/
def FileOpener.readonly : FileOpener := ⟨.Never, true, none⟩

/-- `src/lib.rs` `impl IntoOpenOptions for FileOpener`: build the primitive
flag set from the configuration. -/
def FileOpener.into_open_options (o : FileOpener) : Std.OpenOptions :=
  let opts : Std.OpenOptions := {}
  let opts :=
    match o.createMode with
    | .CreateNew => { opts with create_new := true }
    | .IfNotExists => { opts with create := true }
    | .Never => opts
  let opts := { opts with read := o.readable }
  match o.writeOption with
  | some .Append => { opts with append := true }
  | some .Overwrite => { opts with write := true }
  | some .Truncate => { opts with truncate := true }
  | none => opts

/-- `src/lib.rs` `File`: wraps a `PathBuf`. -/
structure File where
  path : Path
deriving DecidableEq, Repr

/-- `File::new`: `path.as_ref().to_path_buf()`, a pure copy of the path. -/
def File.new (p : Path) : File := ⟨p⟩

/-- `impl Default for File`: wraps `PathBuf::new()`, the empty path. -/
def File.default : File := ⟨""⟩

/-- `impl Deref for File`: exposes the wrapped path. -/
def File.deref (f : File) : Path := f.path

/-- `File::open_with`: open the wrapped path with the given options. -/
def File.open_with (f : File) (opt : FileOpener) (fs : Fs) :
    Except IoError Std.Handle × Fs :=
  opt.into_open_options.open f.path fs

/-- `File::write_all_with`: `buf_writer`, `write_all`, `sync_all`. -/
def File.write_all_with (f : File) (buf : List Nat) (opt : FileOpener)
    (fs : Fs) : WriteOutcome :=
  writeAllVia opt.into_open_options f.path buf fs

/-- `File::append`. -/
def File.append (f : File) (buf : List Nat) (fs : Fs) : WriteOutcome :=
  f.write_all_with buf FileOpener.appending fs

/-- `File::overwrite`. -/
def File.overwrite (f : File) (buf : List Nat) (fs : Fs) : WriteOutcome :=
  f.write_all_with buf FileOpener.overwrite fs

/-- `File::truncate`. -/
def File.truncate (f : File) (buf : List Nat) (fs : Fs) : WriteOutcome :=
  f.write_all_with buf FileOpener.truncate fs

/-- `File::read_all`. -/
def File.read_all (f : File) (fs : Fs) : Except IoError (List Nat) × Fs :=
  readAllVia FileOpener.readonly.into_open_options f.path fs

/-- `File::read_string`. -/
def File.read_string (f : File) (fs : Fs) : Except IoError (List Nat) × Fs :=
  readStringVia FileOpener.readonly.into_open_options f.path fs

end Lib

namespace FileRs

/-- `src/file.rs` `CreateMode`. -/
inductive CreateMode where
  | CreateNew
  | IfNotExists
  | Never
deriving DecidableEq, Repr

/-- `src/file.rs` `WriteOption`. -/
inductive WriteOption where
  | Append
  | Overwrite
  | Truncate
deriving DecidableEq, Repr

/-- `src/file.rs` `FileOpener(CreateMode, bool, Option<WriteOption>)`. -/
structure FileOpener where
  createMode : CreateMode
  readable : Bool
  writeOption : Option WriteOption
deriving DecidableEq, Repr

/-- `FileOpener::appending` (file.rs). -/
def FileOpener.appending : FileOpener := ⟨.Never, false, some .Append⟩

/-- `FileOpener::truncate` (file.rs). -/
def FileOpener.truncate : FileOpener := ⟨.IfNotExists, false, some .Truncate⟩

/-- `FileOpener::overwrite` (file.rs). -/
def FileOpener.overwrite : FileOpener := ⟨.IfNotExists, false, some .Overwrite⟩

/-- `FileOpener::append_or_create` (file.rs). -/
def FileOpener.append_or_create : FileOpener := ⟨.IfNotExists, false, some .Append⟩

/-- `FileOpener::readonly` (file.rs). -/
def FileOpener.readonly : FileOpener := ⟨.Never, true, none⟩

/-- `src/file.rs` `FileOpener::into_open_options`. -/
def FileOpener.into_open_options (o : FileOpener) : Std.OpenOptions :=
  let opts : Std.OpenOptions := {}
  let opts :=
    match o.createMode with
    | .CreateNew => { opts with create_new := true }
    | .IfNotExists => { opts with create := true }
    | .Never => opts
  let opts := { opts with read := o.readable }
  match o.writeOption with
  | some .Append => { opts with append := true }
  | some .Overwrite => { opts with write := true }
  | some .Truncate => { opts with truncate := true }
  | none => opts

/-- `src/file.rs` `impl Open for FileOpener`:
`self.into_open_options().open(&path)`. -/
def FileOpener.open (o : FileOpener) (p : Path) (fs : Fs) :
    Except IoError Std.Handle × Fs :=
  o.into_open_options.open p fs

/-- `src/file.rs` `File(PathBuf)` (tuple struct; `path` models field `.0`). -/
structure File where
  path : Path
deriving DecidableEq, Repr

/-- `File::new` (file.rs). -/
def File.new (p : Path) : File := ⟨p⟩

/-- `impl Default for File` (file.rs): wraps `PathBuf::new()`. -/
def File.default : File := ⟨""⟩

/-- `impl AsRef<Path> for File` (file.rs). -/
def File.as_ref (f : File) : Path := f.path

/-- `impl Deref for File` (file.rs). -/
def File.deref (f : File) : Path := f.path

/-- `File::open_with` (file.rs): delegates to `Open::open`. -/
def File.open_with (f : File) (opt : FileOpener) (fs : Fs) :
    Except IoError Std.Handle × Fs :=
  opt.open f.path fs

/-- `File::write_all_with` (file.rs). -/
def File.write_all_with (f : File) (buf : List Nat) (opt : FileOpener)
    (fs : Fs) : WriteOutcome :=
  writeAllVia opt.into_open_options f.path buf fs

/-- `File::append` (file.rs). -/
def File.append (f : File) (buf : List Nat) (fs : Fs) : WriteOutcome :=
  f.write_all_with buf FileOpener.appending fs

/-- `File::overwrite` (file.rs). -/
def File.overwrite (f : File) (buf : List Nat) (fs : Fs) : WriteOutcome :=
  f.write_all_with buf FileOpener.overwrite fs

/-- `File::truncate` (file.rs). -/
def File.truncate (f : File) (buf : List Nat) (fs : Fs) : WriteOutcome :=
  f.write_all_with buf FileOpener.truncate fs

/-- `File::read_all` (file.rs). -/
def File.read_all (f : File) (fs : Fs) : Except IoError (List Nat) × Fs :=
  readAllVia FileOpener.readonly.into_open_options f.path fs

/-- `File::read_string` (file.rs). -/
def File.read_string (f : File) (fs : Fs) : Except IoError (List Nat) × Fs :=
  readStringVia FileOpener.readonly.into_open_options f.path fs

end FileRs

/-- Field-preserving correspondence between the `FileOpener` types of the
two source variants, used to state their behavioural equivalence. -/
def openerToFileRs (o : Lib.FileOpener) : FileRs.FileOpener :=
  ⟨match o.createMode with
    | .CreateNew => .CreateNew
    | .IfNotExists => .IfNotExists
    | .Never => .Never,
   o.readable,
   match o.writeOption with
    | some .Append => some .Append
    | some .Overwrite => some .Overwrite
    | some .Truncate => some .Truncate
    | none => none⟩

/-! ## General lemmas about the model -/

theorem Fs.lookup_insert (fs : Fs) (p : Path) (c : List Nat) :
    (fs.insert p c).lookup p = some c := by
  induction fs with
  | nil => simp [Fs.insert, Fs.lookup]
  | cons hd tl ih =>
      obtain ⟨q, d⟩ := hd
      by_cases h : q = p <;> simp [Fs.insert, Fs.lookup, h, ih]

/-- `overwrite` on a path with no existing file: succeeds, and the file
afterwards holds exactly the written bytes. -/
theorem overwrite_fresh (p : Path) (B : List Nat) (fs : Fs)
    (h : fs.lookup p = none) :
    ((Lib.File.new p).overwrite B fs).result = .ok () ∧
    ((Lib.File.new p).overwrite B fs).fs.lookup p = some B := by
  show (writeAllVia _ p B fs).result = _ ∧ (writeAllVia _ p B fs).fs.lookup p = _
  have hopen :
      (Lib.FileOpener.overwrite.into_open_options).open p fs
        = (.ok ⟨p, false, true, false⟩, fs.insert p []) := by
    simp [Lib.FileOpener.into_open_options, Lib.FileOpener.overwrite,
      Std.OpenOptions.open, h]
  rw [writeAllVia, hopen]
  rcases B with _ | ⟨b, B'⟩
  · simp [Std.Handle.writeBytes, Fs.lookup_insert, Std.bufWriterCapacity]
  · refine ⟨?_, ?_⟩ <;> simp [Std.Handle.writeBytes, Fs.lookup_insert] <;>
      split <;> simp [Fs.lookup_insert]

/-- `overwrite` on a path holding content `c`: succeeds, and the file
afterwards holds the written bytes followed by the preserved trailing
bytes of `c`. -/
theorem overwrite_existing (p : Path) (B c : List Nat) (fs : Fs)
    (h : fs.lookup p = some c) :
    ((Lib.File.new p).overwrite B fs).result = .ok () ∧
    ((Lib.File.new p).overwrite B fs).fs.lookup p
      = some (B ++ c.drop B.length) := by
  show (writeAllVia _ p B fs).result = _ ∧ (writeAllVia _ p B fs).fs.lookup p = _
  have hopen :
      (Lib.FileOpener.overwrite.into_open_options).open p fs
        = (.ok ⟨p, false, true, false⟩, fs) := by
    simp [Lib.FileOpener.into_open_options, Lib.FileOpener.overwrite,
      Std.OpenOptions.open, h]
  rw [writeAllVia, hopen]
  rcases B with _ | ⟨b, B'⟩
  · simp [Std.Handle.writeBytes, h, Std.bufWriterCapacity]
  · refine ⟨?_, ?_⟩ <;> simp [Std.Handle.writeBytes, h, Fs.lookup_insert] <;>
      split <;> simp [Fs.lookup_insert]

/-- `append` on a path holding content `c`: succeeds, and the file
afterwards holds `c` followed by the appended bytes. -/
theorem append_existing (p : Path) (B c : List Nat) (fs : Fs)
    (h : fs.lookup p = some c) :
    ((Lib.File.new p).append B fs).result = .ok () ∧
    ((Lib.File.new p).append B fs).fs.lookup p = some (c ++ B) := by
  show (writeAllVia _ p B fs).result = _ ∧ (writeAllVia _ p B fs).fs.lookup p = _
  have hopen :
      (Lib.FileOpener.appending.into_open_options).open p fs
        = (.ok ⟨p, false, true, true⟩, fs) := by
    simp [Lib.FileOpener.into_open_options, Lib.FileOpener.appending,
      Std.OpenOptions.open, h]
  rw [writeAllVia, hopen]
  rcases B with _ | ⟨b, B'⟩
  · simp [Std.Handle.writeBytes, h, Std.bufWriterCapacity]
  · refine ⟨?_, ?_⟩ <;> simp [Std.Handle.writeBytes, h, Fs.lookup_insert] <;>
      split <;> simp [Fs.lookup_insert]

/-- `read_all` on a path holding content `c` returns exactly `c` and does
not change the filesystem. -/
theorem read_all_content (p : Path) (c : List Nat) (fs : Fs)
    (h : fs.lookup p = some c) :
    (Lib.File.new p).read_all fs = (.ok c, fs) := by
  show readAllVia _ p fs = _
  have hopen :
      (Lib.FileOpener.readonly.into_open_options).open p fs
        = (.ok ⟨p, true, false, false⟩, fs) := by
    simp [Lib.FileOpener.into_open_options, Lib.FileOpener.readonly,
      Std.OpenOptions.open, h]
  rw [readAllVia, hopen]
  simp [h]

/-! ## Claim theorems -/

/-- C1: the claim states that every write-completing operation flushes the
library-level write buffer and syncs before reporting success, and that no
such operation returns `Ok` while the written bytes remain only in a
library-level buffer.  The code violates this: `write_all_with` calls
`sync_all` on the underlying file without first flushing the `BufWriter`,
so for any write smaller than the buffer capacity it returns `Ok` while
the bytes are still only in the `BufWriter` buffer.  Concretely,
`overwrite(b"hi")` on a fresh path reports `Ok` at a moment when the whole
payload is still pending in the buffer and the file on the filesystem is
empty. -/
theorem c1_overwrite_ok_with_bytes_only_in_buffer :
    ((Lib.File.new "foo.txt").overwrite [104, 105] []).result = .ok () ∧
    ((Lib.File.new "foo.txt").overwrite [104, 105] []).pendingAtReturn
      = [104, 105] ∧
    ((Lib.File.new "foo.txt").overwrite [104, 105] []).fsAtReturn.lookup
      "foo.txt" = some [] := by
  decide

/-- C2: the claim states that `truncate(B)` always succeeds and that a
subsequent `read_all` returns `B`.  The code violates this: the `truncate`
opener sets the truncate-on-open and create flags without write or append
access, a combination Rust's `OpenOptions` rejects with `InvalidInput`
(`EINVAL`), so `truncate` fails for every byte sequence, every path and
every filesystem state, leaving the filesystem unchanged. -/
theorem c2_truncate_always_invalid_input (B : List Nat) (p : Path) (fs : Fs) :
    (Lib.File.new p).truncate B fs = ⟨.error .InvalidInput, [], fs, fs⟩ := rfl

/-- C3: `into_open_options` is a pure total function whose flag set
reflects the configuration exactly: the create-new flag iff `CreateNew`,
the create flag iff `IfNotExists` (and so no creation flag for `Never`),
the read flag copied from `readable`, the append flag iff `Append`, the
write flag iff `Overwrite`, the truncate flag iff `Truncate`, and all
write-related flags clear exactly when the write discipline is absent. -/
theorem c3_into_open_options_flag_mapping (o : Lib.FileOpener) :
    ((o.into_open_options).create_new = true ↔ o.createMode = .CreateNew) ∧
    ((o.into_open_options).create = true ↔ o.createMode = .IfNotExists) ∧
    (o.into_open_options).read = o.readable ∧
    ((o.into_open_options).append = true ↔ o.writeOption = some .Append) ∧
    ((o.into_open_options).write = true ↔ o.writeOption = some .Overwrite) ∧
    ((o.into_open_options).truncate = true ↔ o.writeOption = some .Truncate) ∧
    (o.writeOption = none ↔
      (o.into_open_options).append = false ∧
      (o.into_open_options).write = false ∧
      (o.into_open_options).truncate = false) := by
  obtain ⟨cm, r, w⟩ := o
  cases cm <;> cases r <;> rcases w with _ | w <;>
    first
      | decide
      | (cases w <;> decide)

/-- C4 counterexample: with a pre-existing file `[0,0,0]` at the path,
`overwrite([1])` then `append([2])` then `read_all` returns `[1,0,0,2]`,
not `[1] ++ [2]`, because `overwrite` preserves trailing bytes beyond the
written range. -/
theorem c4_counterexample :
    (((Lib.File.new "f").overwrite [1] [("f", [0, 0, 0])]).result
      = .ok ()) ∧
    (((Lib.File.new "f").append [2]
        ((Lib.File.new "f").overwrite [1] [("f", [0, 0, 0])]).fs).result
      = .ok ()) ∧
    ((Lib.File.new "f").read_all
        ((Lib.File.new "f").append [2]
          ((Lib.File.new "f").overwrite [1] [("f", [0, 0, 0])]).fs).fs).1
      = .ok [1, 0, 0, 2] ∧
    ¬(((Lib.File.new "f").read_all
        ((Lib.File.new "f").append [2]
          ((Lib.File.new "f").overwrite [1] [("f", [0, 0, 0])]).fs).fs).1
      = .ok ([1] ++ [2])) := by
  decide

/-- C4 amended: for all byte sequences `B1`, `B2`, on a path where no file
exists beforehand, `overwrite(B1)` then `append(B2)` both succeed and a
subsequent `read_all` returns exactly `B1 ++ B2`. -/
theorem c4_overwrite_append_reads_concat (B1 B2 : List Nat) (p : Path)
    (fs : Fs) (h : fs.lookup p = none) :
    ((Lib.File.new p).overwrite B1 fs).result = .ok () ∧
    ((Lib.File.new p).append B2
        ((Lib.File.new p).overwrite B1 fs).fs).result = .ok () ∧
    ((Lib.File.new p).read_all
        ((Lib.File.new p).append B2
          ((Lib.File.new p).overwrite B1 fs).fs).fs).1 = .ok (B1 ++ B2) := by
  obtain ⟨h1, h2⟩ := overwrite_fresh p B1 fs h
  obtain ⟨h3, h4⟩ := append_existing p B2 B1 _ h2
  refine ⟨h1, h3, ?_⟩
  rw [read_all_content p (B1 ++ B2) _ h4]

/-- C4 witness: the amended round trip at `B1 = [1]`, `B2 = [2]`, path
`"f"`, empty filesystem. -/
theorem c4_witness :
    (Fs.lookup [] "f" = none) ∧
    (((Lib.File.new "f").overwrite [1] []).result = .ok () ∧
     ((Lib.File.new "f").append [2]
        ((Lib.File.new "f").overwrite [1] []).fs).result = .ok () ∧
     ((Lib.File.new "f").read_all
        ((Lib.File.new "f").append [2]
          ((Lib.File.new "f").overwrite [1] []).fs).fs).1 = .ok ([1] ++ [2])) :=
  ⟨by decide, c4_overwrite_append_reads_concat [1] [2] "f" [] (by decide)⟩

/-- C5: `append(B)` on a path where no file exists fails with `NotFound`
and leaves the filesystem exactly as it was (no file is created). -/
theorem c5_append_notfound_no_create (B : List Nat) (p : Path) (fs : Fs)
    (h : fs.lookup p = none) :
    (Lib.File.new p).append B fs = ⟨.error .NotFound, [], fs, fs⟩ := by
  show writeAllVia _ p B fs = _
  have hopen :
      (Lib.FileOpener.appending.into_open_options).open p fs
        = (.error .NotFound, fs) := by
    simp [Lib.FileOpener.into_open_options, Lib.FileOpener.appending,
      Std.OpenOptions.open, h]
  rw [writeAllVia, hopen]

/-- C5 witness: `append([1])` at path `"g"` on the empty filesystem. -/
theorem c5_witness :
    (Fs.lookup [] "g" = none) ∧
    (Lib.File.new "g").append [1] [] = ⟨.error .NotFound, [], [], []⟩ :=
  ⟨by decide, c5_append_notfound_no_create [1] "g" [] (by decide)⟩

/-- C6: opening with the `readonly` configuration (via `open_with`, hence
also `read_all` and `read_string`) on a path where no file exists fails
with `NotFound` and leaves the filesystem exactly as it was (the file is
never created as a side effect). -/
theorem c6_readonly_notfound_no_create (p : Path) (fs : Fs)
    (h : fs.lookup p = none) :
    (Lib.File.new p).open_with Lib.FileOpener.readonly fs
      = (.error .NotFound, fs) ∧
    (Lib.File.new p).read_all fs = (.error .NotFound, fs) ∧
    (Lib.File.new p).read_string fs = (.error .NotFound, fs) := by
  have hopen :
      (Lib.FileOpener.readonly.into_open_options).open p fs
        = (.error .NotFound, fs) := by
    simp [Lib.FileOpener.into_open_options, Lib.FileOpener.readonly,
      Std.OpenOptions.open, h]
  refine ⟨hopen, ?_, ?_⟩
  · show readAllVia _ p fs = _
    rw [readAllVia, hopen]
  · show readStringVia _ p fs = _
    rw [readStringVia, hopen]

/-- C6 witness: the readonly open, `read_all` and `read_string` at path
`"h"` on the empty filesystem. -/
theorem c6_witness :
    (Fs.lookup [] "h" = none) ∧
    ((Lib.File.new "h").open_with Lib.FileOpener.readonly []
        = (.error .NotFound, []) ∧
     (Lib.File.new "h").read_all [] = (.error .NotFound, []) ∧
     (Lib.File.new "h").read_string [] = (.error .NotFound, [])) :=
  ⟨by decide, c6_readonly_notfound_no_create "h" [] (by decide)⟩

/-- C7 counterexample: with a pre-existing file `[0,0]` at the path, two
successive `overwrite([1])` calls both succeed but leave content `[1,0]`,
not `[1]`: the trailing byte of the previous content is preserved, so the
final content is not the written sequence. -/
theorem c7_counterexample :
    (((Lib.File.new "f").overwrite [1] [("f", [0, 0])]).result = .ok ()) ∧
    (((Lib.File.new "f").overwrite [1]
        ((Lib.File.new "f").overwrite [1] [("f", [0, 0])]).fs).result
      = .ok ()) ∧
    ((Lib.File.new "f").overwrite [1]
        ((Lib.File.new "f").overwrite [1] [("f", [0, 0])]).fs).fs.lookup "f"
      = some [1, 0] ∧
    ¬(((Lib.File.new "f").overwrite [1]
        ((Lib.File.new "f").overwrite [1] [("f", [0, 0])]).fs).fs.lookup "f"
      = some [1]) := by
  decide

/-- C7 amended: for every byte sequence `B`, on a path where no file
exists beforehand, calling `overwrite(B)` twice in succession succeeds
both times and yields final file content exactly `B` after each call, with
no accumulation. -/
theorem c7_overwrite_twice_fresh (B : List Nat) (p : Path) (fs : Fs)
    (h : fs.lookup p = none) :
    ((Lib.File.new p).overwrite B fs).result = .ok () ∧
    ((Lib.File.new p).overwrite B fs).fs.lookup p = some B ∧
    ((Lib.File.new p).overwrite B
        ((Lib.File.new p).overwrite B fs).fs).result = .ok () ∧
    ((Lib.File.new p).overwrite B
        ((Lib.File.new p).overwrite B fs).fs).fs.lookup p = some B := by
  obtain ⟨h1, h2⟩ := overwrite_fresh p B fs h
  obtain ⟨h3, h4⟩ := overwrite_existing p B B _ h2
  refine ⟨h1, h2, h3, ?_⟩
  simpa using h4

/-- C7 witness: the amended double overwrite at `B = [9]`, path `"f"`,
empty filesystem. -/
theorem c7_witness :
    (Fs.lookup [] "f" = none) ∧
    (((Lib.File.new "f").overwrite [9] []).result = .ok () ∧
     ((Lib.File.new "f").overwrite [9] []).fs.lookup "f" = some [9] ∧
     ((Lib.File.new "f").overwrite [9]
        ((Lib.File.new "f").overwrite [9] []).fs).result = .ok () ∧
     ((Lib.File.new "f").overwrite [9]
        ((Lib.File.new "f").overwrite [9] []).fs).fs.lookup "f" = some [9]) :=
  ⟨by decide, c7_overwrite_twice_fresh [9] "f" [] (by decide)⟩

/-- C8: each of the five factory configurations of both source variants
satisfies the invariant that a configuration without a write discipline is
readable (no library-produced configuration is neither readable nor
writable). -/
theorem c8_factory_read_write_invariant :
    (Lib.FileOpener.appending.writeOption.isSome
      || Lib.FileOpener.appending.readable) = true ∧
    (Lib.FileOpener.truncate.writeOption.isSome
      || Lib.FileOpener.truncate.readable) = true ∧
    (Lib.FileOpener.overwrite.writeOption.isSome
      || Lib.FileOpener.overwrite.readable) = true ∧
    (Lib.FileOpener.append_or_create.writeOption.isSome
      || Lib.FileOpener.append_or_create.readable) = true ∧
    (Lib.FileOpener.readonly.writeOption.isSome
      || Lib.FileOpener.readonly.readable) = true ∧
    (FileRs.FileOpener.appending.writeOption.isSome
      || FileRs.FileOpener.appending.readable) = true ∧
    (FileRs.FileOpener.truncate.writeOption.isSome
      || FileRs.FileOpener.truncate.readable) = true ∧
    (FileRs.FileOpener.overwrite.writeOption.isSome
      || FileRs.FileOpener.overwrite.readable) = true ∧
    (FileRs.FileOpener.append_or_create.writeOption.isSome
      || FileRs.FileOpener.append_or_create.readable) = true ∧
    (FileRs.FileOpener.readonly.writeOption.isSome
      || FileRs.FileOpener.readonly.readable) = true := by
  decide

/-- C9: the two duplicated source variants are behaviourally equivalent:
under the field-preserving correspondence of configurations, the two
`into_open_options` functions produce identical primitive flag sets, and
the corresponding `File` operations (`open_with`, `write_all_with`,
`append`, `overwrite`, `truncate`, `read_all`, `read_string`) have
identical input/output behaviour on every path, buffer and filesystem
state. -/
theorem c9_variants_equivalent :
    (∀ o : Lib.FileOpener,
      (openerToFileRs o).into_open_options = o.into_open_options) ∧
    (∀ (p : Path) (fs : Fs) (o : Lib.FileOpener),
      (FileRs.File.new p).open_with (openerToFileRs o) fs
        = (Lib.File.new p).open_with o fs) ∧
    (∀ (p : Path) (B : List Nat) (o : Lib.FileOpener) (fs : Fs),
      (FileRs.File.new p).write_all_with B (openerToFileRs o) fs
        = (Lib.File.new p).write_all_with B o fs) ∧
    (∀ (p : Path) (B : List Nat) (fs : Fs),
      (FileRs.File.new p).append B fs = (Lib.File.new p).append B fs) ∧
    (∀ (p : Path) (B : List Nat) (fs : Fs),
      (FileRs.File.new p).overwrite B fs = (Lib.File.new p).overwrite B fs) ∧
    (∀ (p : Path) (B : List Nat) (fs : Fs),
      (FileRs.File.new p).truncate B fs = (Lib.File.new p).truncate B fs) ∧
    (∀ (p : Path) (fs : Fs),
      (FileRs.File.new p).read_all fs = (Lib.File.new p).read_all fs) ∧
    (∀ (p : Path) (fs : Fs),
      (FileRs.File.new p).read_string fs = (Lib.File.new p).read_string fs) := by
  have hflags : ∀ o : Lib.FileOpener,
      (openerToFileRs o).into_open_options = o.into_open_options := by
    rintro ⟨cm, r, w⟩
    cases cm <;> rcases w with _ | w <;>
      first
        | rfl
        | (cases w <;> rfl)
  refine ⟨hflags, ?_, ?_, ?_, ?_, ?_, ?_, ?_⟩
  · intro p fs o
    show (openerToFileRs o).into_open_options.open p fs
      = o.into_open_options.open p fs
    rw [hflags]
  · intro p B o fs
    show writeAllVia (openerToFileRs o).into_open_options p B fs
      = writeAllVia o.into_open_options p B fs
    rw [hflags]
  · intro p B fs; rfl
  · intro p B fs; rfl
  · intro p B fs; rfl
  · intro p fs; rfl
  · intro p fs; rfl

/-- C10: file-handle construction is pure and lossless: `File::new(p)`
wraps exactly `p` (exposed unchanged through `Deref` and `AsRef`) in both
source variants, and `File::default()` wraps the empty path.  Purity and
infallibility are reflected in the embedding: `File.new` takes no
filesystem argument and returns a `File` directly, not a result. -/
theorem c10_file_new_pure (p : Path) :
    (Lib.File.new p).path = p ∧
    (Lib.File.new p).deref = p ∧
    Lib.File.default.path = "" ∧
    (FileRs.File.new p).path = p ∧
    (FileRs.File.new p).as_ref = p ∧
    (FileRs.File.new p).deref = p ∧
    FileRs.File.default.path = "" :=
  ⟨rfl, rfl, rfl, rfl, rfl, rfl, rfl⟩

end GoodFiles
